import Mathlib

/-!
A shallow embedding of `pkg/oc/cli/image/append/append.go` (the `oc image append`
command): option completion and platform filtering, the scratch source repository,
the per-layer transfer task, and the `Run` pipeline, together with theorems about
the frozen specification claims.

Registry and filesystem interactions are modelled as environment functions; the
operations issued against the source and destination registries are recorded as a
list of effects. Functions from packages of this repository that are not under
`src/` (the `add`, `dockerlayer` and reference packages, and the manifest-list
selection helper) are modelled from the specification and carry a doc comment
saying so.
-/

namespace ImageAppend

/-- Nanoseconds since the Unix epoch, standing in for `time.Time`. -/
abbrev Time := Int

/-- `distribution.Descriptor`: media type, digest and size of a blob. -/
structure Descriptor where
  mediaType : String := ""
  digest : String := ""
  size : Int := 0
deriving Repr, DecidableEq

/-- Modelled from the spec: `dockerlayer.GzippedEmptyLayerDigest` (the `dockerlayer`
package is not under src) — the compressed digest of the canonical empty
gzipped tar layer. -/
def GzippedEmptyLayerDigest : String :=
  "sha256:a3ed95caeb02ffe68cdd9fd84406680ae93d633cb16422d00e8a7c22955b46d4"

/-- Modelled from the spec: `dockerlayer.EmptyLayerDiffID` (not under src) — the
uncompressed-content digest of the canonical empty tar layer. -/
def EmptyLayerDiffID : String :=
  "sha256:5f70bf18a086007016e948b04aed3b82103a36bea41755b6cddfaf10ace3c6ef"

/-- Modelled from the spec: `dockerlayer.GzippedEmptyLayer` (not under src) — the
bytes of the canonical empty gzipped tar blob. -/
def GzippedEmptyLayer : List Nat :=
  [31, 139, 8, 0, 0, 9, 110, 136, 0, 255, 98, 24, 5, 163, 96, 20, 140, 88, 0, 8,
   0, 0, 255, 255, 46, 175, 181, 239, 0, 4, 0, 0]

/-- `schema2.MediaTypeLayer` (constant of the external manifest package). -/
def MediaTypeLayer : String := "application/vnd.docker.image.rootfs.diff.tar.gzip"

/-- `schema2.MediaTypeImageConfig` (constant of the external manifest package). -/
def MediaTypeImageConfig : String := "application/vnd.docker.container.image.v1+json"

/-! ## The scratch source repository (`scratchRepo`) -/

/-- Result of a repository method: either a value or a runtime
`panic("not implemented")`. -/
inductive MethodResult (α : Type) where
  | panics (msg : String)
  | returns (a : α)
deriving Repr, DecidableEq

/-- `distribution.ErrBlobUnknown`, the only error `scratchRepo` returns. -/
inductive BlobErr where
  | blobUnknown
deriving Repr, DecidableEq

/-- `scratchRepo.Stat`: serves exactly the canonical empty gzipped tar layer. -/
def scratchRepoStat (dgst : String) : Except BlobErr Descriptor :=
  if dgst ≠ GzippedEmptyLayerDigest then .error .blobUnknown
  else .ok { mediaType := "application/vnd.docker.image.rootfs.diff.tar.gzip",
             digest := GzippedEmptyLayerDigest,
             size := (GzippedEmptyLayer.length : Int) }

/-- `scratchRepo.Get`. -/
def scratchRepoGet (dgst : String) : Except BlobErr (List Nat) :=
  if dgst ≠ GzippedEmptyLayerDigest then .error .blobUnknown
  else .ok GzippedEmptyLayer

/-- `scratchRepo.Open`: a `nopCloseBuffer` over the embedded bytes, modelled as
the byte list it reads. -/
def scratchRepoOpen (dgst : String) : Except BlobErr (List Nat) :=
  if dgst ≠ GzippedEmptyLayerDigest then .error .blobUnknown
  else .ok GzippedEmptyLayer

/-- `scratchRepo.Named` panics. -/
def scratchRepoNamed : MethodResult Unit := .panics "not implemented"

/-- `scratchRepo.Tags` panics. -/
def scratchRepoTags : MethodResult Unit := .panics "not implemented"

/-- `scratchRepo.Manifests` panics. -/
def scratchRepoManifests : MethodResult Unit := .panics "not implemented"

/-- `scratchRepo.Put` panics. -/
def scratchRepoPut : MethodResult Descriptor := .panics "not implemented"

/-- `scratchRepo.Create` panics. -/
def scratchRepoCreate : MethodResult Unit := .panics "not implemented"

/-- `scratchRepo.Resume` panics. -/
def scratchRepoResume : MethodResult Unit := .panics "not implemented"

/-- `scratchRepo.ServeBlob` panics. -/
def scratchRepoServeBlob : MethodResult Unit := .panics "not implemented"

/-- `scratchRepo.Delete` panics. -/
def scratchRepoDelete : MethodResult Unit := .panics "not implemented"

/-! ## Options, completion and the platform filter -/

/-- `AppendImageOptions`. The compiled regular expression `OSFilter` is modelled
by its matching function (`regexp.MatchString`). -/
structure AppendImageOptions where
  From : String := ""
  To : String := ""
  LayerFiles : List String := []
  ConfigPatch : String := ""
  MetaPatch : String := ""
  DropHistory : Bool := false
  CreatedAt : String := ""
  OSFilter : Option (String → Bool) := none
  DefaultOSFilter : Bool := false
  FilterByOS : String := ""
  MaxPerRegistry : Int := 3
  DryRun : Bool := false
  Insecure : Bool := false
  Force : Bool := false

/-- A `manifestlist.ManifestDescriptor`, reduced to its platform fields. -/
structure ManifestDescriptor where
  os : String := ""
  architecture : String := ""
  variant : String := ""
deriving Repr, DecidableEq

/-- Environment for `Complete`: the host platform, `regexp.QuoteMeta`,
`regexp.Compile` (returning the compiled matcher) and `os.Stat` (returning
whether the path is a directory). -/
structure CompleteEnv where
  goos : String
  goarch : String
  quoteMeta : String → String
  compile : String → Option (String → Bool)
  statFile : String → Except String Bool

/-- The argument loop of `Complete`: every positional argument must stat
successfully and must not be a directory. -/
def checkLayerArgs (env : CompleteEnv) : List String → Except String Unit
  | [] => .ok ()
  | a :: rest =>
    match env.statFile a with
    | .error m => .error ("invalid argument: " ++ m)
    | .ok isDir =>
      if isDir then .error ("invalid argument: " ++ a ++ " is a directory")
      else checkLayerArgs env rest

/-- `(*AppendImageOptions).Complete`. `filterFlagChanged` is
`cmd.Flags().Changed("filter-by-os")`. -/
def Complete (o : AppendImageOptions) (filterFlagChanged : Bool) (args : List String)
    (env : CompleteEnv) : Except String AppendImageOptions :=
  let useDefault := o.FilterByOS.length == 0 && !filterFlagChanged
  let o1 := if useDefault then { o with DefaultOSFilter := true } else o
  let pattern := if useDefault then env.quoteMeta (env.goos ++ "/" ++ env.goarch)
                 else o.FilterByOS
  let o2E : Except String AppendImageOptions :=
    if pattern.length > 0 then
      match env.compile pattern with
      | none => .error "--filter-by-os was not a valid regular expression"
      | some re => .ok { o1 with OSFilter := some re }
    else .ok o1
  match o2E with
  | .error m => .error m
  | .ok o2 =>
    match checkLayerArgs env args with
    | .error m => .error m
    | .ok _ => .ok { o2 with LayerFiles := args }

/-- `(*AppendImageOptions).includeDescriptor`. -/
def includeDescriptor (o : AppendImageOptions) (d : ManifestDescriptor)
    (hasMultiple : Bool) : Bool :=
  match o.OSFilter with
  | none => true
  | some re =>
    if o.DefaultOSFilter && !hasMultiple then true
    else if d.variant.length > 0 then
      re (d.os ++ "/" ++ d.architecture ++ "/" ++ d.variant)
    else re (d.os ++ "/" ++ d.architecture)

/-- Modelled from the spec: `processManifestList` (not under src) keeps the child
descriptors of a fetched manifest list that pass `includeDescriptor`, telling it
whether the list has more than one entry. -/
def filterManifests (o : AppendImageOptions) (entries : List ManifestDescriptor) :
    List ManifestDescriptor :=
  entries.filter (fun d => includeDescriptor o d (decide (1 < entries.length)))

/-! ## Timestamps -/

/-- One decimal digit of `strconv.ParseInt`. -/
def digitVal (c : Char) : Option Nat :=
  if c.isDigit then some (c.toNat - 48) else none

/-- Decimal value of a nonempty all-digit character list. -/
def digitsNat (cs : List Char) : Option Nat :=
  if cs.isEmpty then none
  else cs.foldl (fun acc c =>
    match acc, digitVal c with
    | some a, some d => some (a * 10 + d)
    | _, _ => none) (some 0)

/-- `strconv.ParseInt(s, 10, 64)`: optional sign, decimal digits, 64-bit range. -/
def parseInt64 (s : String) : Option Int :=
  let p : Bool × List Char :=
    match s.toList with
    | '-' :: rest => (true, rest)
    | '+' :: rest => (false, rest)
    | cs => (false, cs)
  match digitsNat p.2 with
  | none => none
  | some n =>
    let v : Int := if p.1 then -(n : Int) else (n : Int)
    if v < -(2 ^ 63) ∨ (2 ^ 63 - 1) < v then none else some v

/-- `time.Unix(d/1000, (d%1000)*1000000)` in nanoseconds since the epoch. -/
def unixMillis (d : Int) : Time :=
  Int.tdiv d 1000 * 1000000000 + Int.tmod d 1000 * 1000000

/-! ## The image configuration and references -/

/-- `docker10.DockerConfig`, reduced to the one field the command mutates. -/
structure DockerConfig where
  Image : String := ""
deriving Repr, DecidableEq

/-- `docker10.DockerImageConfig`, reduced to the fields the command reads or
writes. `DiffIDs` stands for `RootFS.DiffIDs`; `History` keeps one
empty-layer flag per entry. -/
structure DockerImageConfig where
  Created : Time := 0
  Container : String := ""
  DockerVersion : String := ""
  ContainerConfig : DockerConfig := {}
  Config : Option DockerConfig := none
  Size : Int := 0
  DiffIDs : List String := []
  History : List Bool := []
deriving Repr, DecidableEq

/-- Modelled from the spec: `imagereference.DockerImageReference` (the reference
package is not under src) — registry host, repository path, tag and content id. -/
structure DockerImageReference where
  Registry : String := ""
  Repository : String := ""
  Tag : String := ""
  ID : String := ""
deriving Repr, DecidableEq

/-- The source manifest after manifest-list selection: a modern schema-2
manifest, a legacy signed schema-1 manifest, or an unsupported kind. -/
inductive SrcManifest where
  | schema2 (config : Descriptor) (layers : List Descriptor)
  | schema1 (history : List String) (fsLayers : List String)
  | other
deriving Repr, DecidableEq

/-- Modelled from the spec: the values `add.DigestCopy` (not under src) returns
after one pass over a gzipped tar stream — uncompressed-content digest,
compressed-blob digest, latest tar modification time seen, and byte count. -/
structure DigestCopyRes where
  layerDigest : String := ""
  blobDigest : String := ""
  modTime : Option Time := none
  n : Int := 0
deriving Repr, DecidableEq

/-! ## Effects and errors -/

/-- Registry operations issued by `Run`, in order. -/
inductive Effect where
  | statDest (dgst : String)
  | openSrc (dgst : String)
  | createLocal (file : String)
  | commitLocal (dgst : String)
  | createLayer (dgst : String) (mount : Bool)
  | commitLayer (dgst : String)
  | putConfig
  | putManifest
  | printConfig (c : DockerImageConfig)
deriving Repr, DecidableEq

/-- Failure of one inherited-layer task. -/
inductive TaskErr where
  | accessForDiffID (msg : String)
  | calcDiffID (msg : String)
  | srcAccess (msg : String)
  | createFailed (msg : String)
  | copyFailed (msg : String)
  | streamCalc (msg : String)
  | commitFailed (msg : String)
  | digestMismatch (got expected : String)
deriving Repr, DecidableEq

/-- Failure of `Run`. -/
inductive RunErr where
  | badCreatedAt
  | fromParse
  | fromNeedsTagOrID
  | toParse
  | toByID
  | tagGet (msg : String)
  | manifestGet (msg : String)
  | unsupportedConfig (mt : String)
  | configGet (msg : String)
  | configParse
  | noHistory
  | v1Convert (msg : String)
  | unknownManifestKind
  | imagePatch
  | metaPatch
  | fileOpen (msg : String)
  | localCreate (msg : String)
  | localCommit (msg : String)
  | layerTransfer (e : TaskErr)
  | uploadConfig (msg : String)
  | putManifest (msg : String)
deriving Repr, DecidableEq

/-! ## Environments -/

/-- The source blob store as the transfer phase uses it: `Open`, a digest-tee
read of the opened stream, and a plain copy of the opened stream. -/
structure SrcBlobs where
  openBlob : String → Except String Unit
  digestCopy : String → Except String DigestCopyRes
  readFrom : String → Except String Unit

/-- The scratch source blob store, wrapping the `scratchRepo` methods. -/
def scratchBlobs : SrcBlobs where
  openBlob d :=
    match scratchRepoOpen d with
    | .ok _ => .ok ()
    | .error _ => .error "unknown blob"
  digestCopy d :=
    match scratchRepoOpen d with
    | .ok _ => .ok { layerDigest := EmptyLayerDiffID,
                     blobDigest := GzippedEmptyLayerDigest, modTime := none,
                     n := (GzippedEmptyLayer.length : Int) }
    | .error _ => .error "unknown blob"
  readFrom d :=
    match scratchRepoOpen d with
    | .ok _ => .ok ()
    | .error _ => .error "unknown blob"

/-- Environment of `Run`: wall clock, external parsers, source-registry reads,
destination-registry writes and the local filesystem, each as a function of its
request. `fileDigestCopy` also carries the error flag that the source assigns
but never checks for local layers. -/
structure RunEnv where
  now : Time
  rfc3339 : String → Option Time
  parseRef : String → Option DockerImageReference
  tagGet : String → Except String String
  manifestGet : String → Except String SrcManifest
  configBlobGet : String → Except String (Option DockerImageConfig)
  v1Convert : String → Except String DockerImageConfig
  imagePatch : String → DockerConfig → Option DockerConfig
  metaPatch : String → DockerImageConfig → Option DockerImageConfig
  fileOpen : String → Except String Unit
  fileDigestCopy : String → DigestCopyRes × Bool
  src : SrcBlobs
  toStat : String → Except String Descriptor
  toCreateLocal : String → Except String Unit
  toCommitLocal : String → Except String Unit
  toCreate : String → Except String Unit
  toCommit : String → Except String Descriptor
  uploadConfig : Except String Descriptor
  putManifest : Except String String

/-! ## The add package (modelled from the spec) -/

/-- Modelled from the spec: `add.NewEmptyConfig` (not under src) — the empty
config shell. -/
def NewEmptyConfig : DockerImageConfig := {}

/-- Modelled from the spec: `add.AddLayerToConfig` (not under src) appends the
layer's content digest to the root-filesystem list and a non-empty-layer
history entry. -/
def AddLayerToConfig (c : DockerImageConfig) (_layer : Descriptor)
    (diffID : String) : DockerImageConfig :=
  { c with DiffIDs := c.DiffIDs ++ [diffID], History := c.History ++ [false] }

/-- Modelled from the spec: `add.AddScratchLayerToConfig` (not under src) adds
the synthetic root-filesystem entry for the canonical empty layer and returns
its descriptor. -/
def AddScratchLayerToConfig (c : DockerImageConfig) :
    DockerImageConfig × Descriptor :=
  ({ c with DiffIDs := c.DiffIDs ++ [EmptyLayerDiffID],
            History := c.History ++ [false] },
   { mediaType := MediaTypeLayer, digest := GzippedEmptyLayerDigest,
     size := (GzippedEmptyLayer.length : Int) })

/-! ## The `Run` pipeline -/

/-- Lines 193–205 of `Run`: parse `--created-at` as integer milliseconds or an
RFC3339 date. -/
def parseCreatedAt (env : RunEnv) (s : String) : Except RunErr (Option Time) :=
  if s.length > 0 then
    match parseInt64 s with
    | some d => .ok (some (unixMillis d))
    | none =>
      match env.rfc3339 s with
      | some t => .ok (some t)
      | none => .error .badCreatedAt
  else .ok none

/-- Lines 207–217: parse and validate the `--from` reference. -/
def parseFromRef (env : RunEnv) (s : String) :
    Except RunErr (Option DockerImageReference) :=
  if s.length > 0 then
    match env.parseRef s with
    | none => .error .fromParse
    | some src =>
      if src.Tag.length = 0 ∧ src.ID.length = 0 then .error .fromNeedsTagOrID
      else .ok (some src)
  else .ok none

/-- Lines 218–224: parse and validate the `--to` reference. -/
def parseToRef (env : RunEnv) (s : String) : Except RunErr DockerImageReference :=
  match env.parseRef s with
  | none => .error .toParse
  | some toRef =>
    if toRef.ID.length > 0 then .error .toByID else .ok toRef

/-- The descriptor built for one legacy blob sum (lines 337–341): media type
layer, the blob sum as digest, and a size to be reconstructed later. -/
def schema1Layer (blobSum : String) : Descriptor :=
  { mediaType := MediaTypeLayer, digest := blobSum, size := 0 }

/-- One iteration of the legacy-manifest loop (lines 336–345). -/
def schema1Step (acc : DockerImageConfig × List Descriptor) (blobSum : String) :
    DockerImageConfig × List Descriptor :=
  (AddLayerToConfig acc.1 (schema1Layer blobSum) "", acc.2 ++ [schema1Layer blobSum])

/-- Lines 248–354: fetch the source manifest and extract the base config and
inherited layer list (schema-2 order as given, schema-1 reversed), or build the
scratch base. The boolean records whether the scratch source is in use. -/
def resolveBase (env : RunEnv) (from? : Option DockerImageReference) :
    Except RunErr (DockerImageConfig × List Descriptor × Bool) :=
  match from? with
  | none =>
    let p := AddScratchLayerToConfig NewEmptyConfig
    .ok (p.1, [p.2], true)
  | some src =>
    let srcDigestE : Except RunErr String :=
      if src.Tag.length > 0 then
        match env.tagGet src.Tag with
        | .error m => .error (.tagGet m)
        | .ok d => .ok d
      else .ok src.ID
    match srcDigestE with
    | .error e => .error e
    | .ok srcDigest =>
      match env.manifestGet srcDigest with
      | .error m => .error (.manifestGet m)
      | .ok (.schema2 config layers) =>
        if config.mediaType ≠ MediaTypeImageConfig then
          .error (.unsupportedConfig config.mediaType)
        else
          match env.configBlobGet config.digest with
          | .error m => .error (.configGet m)
          | .ok none => .error .configParse
          | .ok (some c) =>
            .ok ({ c with Size := (layers.map (·.size)).sum }, layers, false)
      | .ok (.schema1 history fsLayers) =>
        if history.length = 0 then .error .noHistory
        else
          match env.v1Convert (history.headD "") with
          | .error m => .error (.v1Convert m)
          | .ok base0 =>
            let p := fsLayers.reverse.foldl schema1Step (base0, [])
            .ok (p.1, p.2, false)
      | .ok .other => .error .unknownManifestKind

/-- Lines 356–358: ensure the runtime sub-config exists. -/
def ensureConfig (base : DockerImageConfig) : DockerImageConfig :=
  match base.Config with
  | none => { base with Config := some {} }
  | some _ => base

/-- Lines 370–376: `--drop-history` clears the build-provenance fields. -/
def applyDropHistory (o : AppendImageOptions) (base : DockerImageConfig) :
    DockerImageConfig :=
  if o.DropHistory then
    { base with ContainerConfig := {}, History := [], Container := "",
                DockerVersion := "",
                Config := base.Config.map (fun c => { c with Image := "" }) }
  else base

/-- Lines 378–382: the `--image` patch over the runtime sub-config. -/
def applyConfigPatch (o : AppendImageOptions) (env : RunEnv)
    (base : DockerImageConfig) : Except RunErr DockerImageConfig :=
  if o.ConfigPatch.length > 0 then
    match env.imagePatch o.ConfigPatch (base.Config.getD {}) with
    | none => .error .imagePatch
    | some c => .ok { base with Config := some c }
  else .ok base

/-- Lines 383–387: the `--meta` patch over the whole config. -/
def applyMetaPatch (o : AppendImageOptions) (env : RunEnv)
    (base : DockerImageConfig) : Except RunErr DockerImageConfig :=
  if o.MetaPatch.length > 0 then
    match env.metaPatch o.MetaPatch base with
    | none => .error .metaPatch
    | some b => .ok b
  else .ok base

/-- Lines 356–387: ensure the runtime sub-config exists, set the creation time,
apply `--drop-history` and the two JSON patches. -/
def assembleConfig (o : AppendImageOptions) (env : RunEnv)
    (createdAt : Option Time) (base : DockerImageConfig) :
    Except RunErr DockerImageConfig :=
  let base := ensureConfig base
  let base := { base with Created := createdAt.getD env.now }
  let base := applyDropHistory o base
  match applyConfigPatch o env base with
  | .error e => .error e
  | .ok base => applyMetaPatch o env base

/-- Lines 392–437, one local layer file. The error `add.DigestCopy` returns is
assigned but never checked by the source for local layers, so the model
ignores it too. -/
def localLayerStep (o : AppendImageOptions) (env : RunEnv)
    (base : DockerImageConfig) (layers : List Descriptor) (eff : List Effect)
    (file : String) :
    Except RunErr (DockerImageConfig × List Descriptor) × List Effect :=
  match env.fileOpen file with
  | .error m => (.error (.fileOpen m), eff)
  | .ok _ =>
    if o.DryRun then
      let res := (env.fileDigestCopy file).1
      let desc : Descriptor :=
        { mediaType := MediaTypeLayer, digest := res.blobDigest, size := res.n }
      let base := AddLayerToConfig base desc res.layerDigest
      let base := match res.modTime with
        | some t => if t ≠ 0 then { base with Created := t } else base
        | none => base
      (.ok (base, layers ++ [desc]), eff)
    else
      let eff := eff ++ [Effect.createLocal file]
      match env.toCreateLocal file with
      | .error m => (.error (.localCreate m), eff)
      | .ok _ =>
        let res := (env.fileDigestCopy file).1
        let desc : Descriptor :=
          { mediaType := MediaTypeLayer, digest := res.blobDigest, size := res.n }
        let base := AddLayerToConfig base desc res.layerDigest
        let base := match res.modTime with
          | some t => if t ≠ 0 then { base with Created := t } else base
          | none => base
        let eff := eff ++ [Effect.commitLocal desc.digest]
        match env.toCommitLocal desc.digest with
        | .error m => (.error (.localCommit m), eff)
        | .ok _ => (.ok (base, layers ++ [desc]), eff)

/-- Lines 392–437: the sequential local-layer loop. -/
def localPhase (o : AppendImageOptions) (env : RunEnv) :
    List String → DockerImageConfig → List Descriptor → List Effect →
    Except RunErr (DockerImageConfig × List Descriptor) × List Effect
  | [], base, layers, eff => (.ok (base, layers), eff)
  | f :: rest, base, layers, eff =>
    match localLayerStep o env base layers eff f with
    | (.error e, eff) => (.error e, eff)
    | (.ok (b, l), eff) => localPhase o env rest b l eff

/-- Lines 488–542: the upload path of an inherited-layer task (cross-repo mount
request when source and destination share a registry host, streaming copy
through the digest tee when the content digest is missing). -/
def transferUpload (env : RunEnv) (src : SrcBlobs) (sameRegistry : Bool)
    (layer : Descriptor) (missingDiffID : Bool) (size : Int)
    (diffID : Option String) (eff : List Effect) :
    Except TaskErr (Int × Option String) × List Effect :=
  let eff := eff ++ [Effect.openSrc layer.digest]
  match src.openBlob layer.digest with
  | .error m => (.error (.srcAccess m), eff)
  | .ok _ =>
    let eff := eff ++ [Effect.createLayer layer.digest sameRegistry]
    match env.toCreate layer.digest with
    | .error m => (.error (.createFailed m), eff)
    | .ok _ =>
      let copied : Except TaskErr (Option String) :=
        if missingDiffID then
          match src.digestCopy layer.digest with
          | .error m => .error (.streamCalc m)
          | .ok res => .ok (some res.layerDigest)
        else
          match src.readFrom layer.digest with
          | .error m => .error (.copyFailed m)
          | .ok _ => .ok diffID
      match copied with
      | .error e => (.error e, eff)
      | .ok diffID =>
        let eff := eff ++ [Effect.commitLayer layer.digest]
        match env.toCommit layer.digest with
        | .error m => (.error (.commitFailed m), eff)
        | .ok desc =>
          if desc.digest ≠ layer.digest then
            (.error (.digestMismatch desc.digest layer.digest), eff)
          else
            (.ok ((if size = 0 then desc.size else size), diffID), eff)

/-- Lines 454–543: one inherited-layer task. Returns the layer's resolved size
and, when computed, its content digest. -/
def transferTask (env : RunEnv) (src : SrcBlobs) (force sameRegistry : Bool)
    (layer : Descriptor) (missingDiffID : Bool) :
    Except TaskErr (Int × Option String) × List Effect :=
  if force then
    transferUpload env src sameRegistry layer missingDiffID layer.size none []
  else
    let eff := [Effect.statDest layer.digest]
    match env.toStat layer.digest with
    | .error _ =>
      transferUpload env src sameRegistry layer missingDiffID layer.size none eff
    | .ok desc =>
      let size := if layer.size = 0 then desc.size else layer.size
      if missingDiffID then
        let eff := eff ++ [Effect.openSrc layer.digest]
        match src.openBlob layer.digest with
        | .error m => (.error (.accessForDiffID m), eff)
        | .ok _ =>
          match src.digestCopy layer.digest with
          | .error m => (.error (.calcDiffID m), eff)
          | .ok res =>
            if layer.digest ≠ GzippedEmptyLayerDigest then
              (.ok (size, some res.layerDigest), eff)
            else
              transferUpload env src sameRegistry layer missingDiffID size
                (some res.layerDigest) eff
      else
        if layer.digest ≠ GzippedEmptyLayerDigest then (.ok (size, none), eff)
        else transferUpload env src sameRegistry layer missingDiffID size none eff

/-- Lines 445–548: the inherited-layer phase over `layers[:numLayers]`, modelled
sequentially (the bounded work queue built by `newWorkQueue`, which is not under
src, propagates the first error; each task writes only its own index). -/
def transferLoop (env : RunEnv) (src : SrcBlobs) (force sameRegistry : Bool) :
    List Nat → List Descriptor → List String → List Effect →
    Except TaskErr (List Descriptor × List String) × List Effect
  | [], layers, diffIDs, eff => (.ok (layers, diffIDs), eff)
  | i :: rest, layers, diffIDs, eff =>
    let layer := layers.getD i {}
    let missing := (diffIDs.getD i "").length == 0
    match transferTask env src force sameRegistry layer missing with
    | (.error e, teff) => (.error e, eff ++ teff)
    | (.ok (size, diffID?), teff) =>
      transferLoop env src force sameRegistry rest
        (layers.set i { layer with size := size })
        (match diffID? with
         | some d => diffIDs.set i d
         | none => diffIDs)
        (eff ++ teff)

/-- Lines 193–387: the sequential setup — flag parsing, reference validation,
source manifest resolution and config assembly. -/
def prepare (o : AppendImageOptions) (env : RunEnv) :
    Except RunErr (Option DockerImageReference × DockerImageReference ×
      DockerImageConfig × List Descriptor × Bool) :=
  match parseCreatedAt env o.CreatedAt with
  | .error e => .error e
  | .ok createdAt =>
    match parseFromRef env o.From with
    | .error e => .error e
    | .ok from? =>
      match parseToRef env o.To with
      | .error e => .error e
      | .ok toRef =>
        match resolveBase env from? with
        | .error e => .error e
        | .ok (base0, layers0, isScratch) =>
          match assembleConfig o env createdAt base0 with
          | .error e => .error e
          | .ok base1 => .ok (from?, toRef, base1, layers0, isScratch)

/-- The command's observable outcome. -/
inductive RunOut where
  | dryRunOut (config : DockerImageConfig) (layers : List Descriptor)
  | pushed (dgst : String) (config : DockerImageConfig) (layers : List Descriptor)
deriving Repr, DecidableEq

/-- Line 353 and 455: the blob store the transfer tasks read from — the scratch
stub when the base is scratch, the source repository otherwise. -/
def srcBlobsFor (env : RunEnv) (isScratch : Bool) : SrcBlobs :=
  if isScratch then scratchBlobs else env.src

/-- Line 497: whether the source and destination share a registry host, in
which case the blob create request carries a cross-repository mount option. -/
def sameRegistryFor (from? : Option DockerImageReference)
    (toRef : DockerImageReference) : Bool :=
  match from? with
  | some f => f.Registry == toRef.Registry
  | none => false

/-- Lines 445–559: the non-dry-run tail of `Run` — the transfer phase, then the
config blob upload and the manifest put (`add.UploadSchema2Config` and
`putManifestInCompatibleSchema`, not under src, modelled from the spec as the
two destination writes over the finalized config and layer list). -/
def publishPhase (o : AppendImageOptions) (env : RunEnv)
    (from? : Option DockerImageReference) (toRef : DockerImageReference)
    (isScratch : Bool) (base : DockerImageConfig) (layers : List Descriptor)
    (numLayers : Nat) (eff : List Effect) :
    Except RunErr RunOut × List Effect :=
  match transferLoop env (srcBlobsFor env isScratch) o.Force
      (sameRegistryFor from? toRef) (List.range numLayers)
      layers base.DiffIDs eff with
  | (.error e, eff) => (.error (.layerTransfer e), eff)
  | (.ok (layers, diffIDs), eff) =>
    let base := { base with DiffIDs := diffIDs }
    let eff := eff ++ [Effect.putConfig]
    match env.uploadConfig with
    | .error m => (.error (.uploadConfig m), eff)
    | .ok _ =>
      let eff := eff ++ [Effect.putManifest]
      match env.putManifest with
      | .error m => (.error (.putManifest m), eff)
      | .ok dgst => (.ok (.pushed dgst base layers), eff)

/-- `(*AppendImageOptions).Run`, as a function of the environment, returning the
command's result and the trace of registry operations it issued. -/
def run (o : AppendImageOptions) (env : RunEnv) :
    Except RunErr RunOut × List Effect :=
  match prepare o env with
  | .error e => (.error e, [])
  | .ok (from?, toRef, base1, layers0, isScratch) =>
    match localPhase o env o.LayerFiles base1 layers0 [] with
    | (.error e, eff) => (.error e, eff)
    | (.ok (base2, layers2), eff) =>
      if o.DryRun then
        (.ok (.dryRunOut base2 layers2), eff ++ [Effect.printConfig base2])
      else
        publishPhase o env from? toRef isScratch base2 layers2 layers0.length eff

/-! ## Claims about completion, filtering and the scratch repository -/

/-- When the filter flag was not supplied and the pattern is empty, `Complete`
installs the compiled quoted host default and marks `DefaultOSFilter`. -/
theorem Complete_default_spec (o : AppendImageOptions) (env : CompleteEnv)
    (args : List String) (re : String → Bool)
    (hfil : o.FilterByOS = "")
    (hlen : 0 < (env.quoteMeta (env.goos ++ "/" ++ env.goarch)).length)
    (hcomp : env.compile (env.quoteMeta (env.goos ++ "/" ++ env.goarch)) = some re)
    (hargs : checkLayerArgs env args = .ok ()) :
    Complete o false args env =
      .ok { o with DefaultOSFilter := true, OSFilter := some re,
                   FilterByOS := "", LayerFiles := args } := by
  unfold Complete
  rw [hfil]
  simp only [String.length_empty, beq_self_eq_true, Bool.not_false, Bool.and_self,
    if_true, hcomp, hargs, if_pos hlen]

/-- When the filter flag was supplied explicitly empty, `Complete` leaves the
filter fields untouched. -/
theorem Complete_explicit_empty_spec (o : AppendImageOptions) (env : CompleteEnv)
    (args : List String)
    (hfil : o.FilterByOS = "")
    (hargs : checkLayerArgs env args = .ok ()) :
    Complete o true args env = .ok { o with LayerFiles := args } := by
  unfold Complete
  rw [hfil]
  simp only [String.length_empty, Bool.not_true, Bool.and_false, if_false, hargs]
  rw [if_neg (by simp)]
  simp [hfil]

/-- C3: when `--filter-by-os` was not supplied, `Complete` installs the quoted
host default filter with `DefaultOSFilter` set; a single-entry manifest list is
then selected regardless of its platform, while a multi-entry list keeps exactly
the entries whose `os/arch` (or `os/arch/variant`) string the filter matches. -/
theorem c3_default_filter_selection
    (o : AppendImageOptions) (env : CompleteEnv) (args : List String)
    (o' : AppendImageOptions) (re : String → Bool)
    (hfil : o.FilterByOS = "")
    (hlen : 0 < (env.quoteMeta (env.goos ++ "/" ++ env.goarch)).length)
    (hcomp : env.compile (env.quoteMeta (env.goos ++ "/" ++ env.goarch)) = some re)
    (hargs : checkLayerArgs env args = .ok ())
    (hc : Complete o false args env = .ok o') :
    o'.DefaultOSFilter = true ∧ o'.OSFilter = some re ∧
    (∀ entries : List ManifestDescriptor, entries.length = 1 →
      filterManifests o' entries = entries) ∧
    (∀ entries : List ManifestDescriptor, 1 < entries.length →
      ∀ d : ManifestDescriptor, d ∈ filterManifests o' entries ↔
        d ∈ entries ∧ (if d.variant.length > 0 then
            re (d.os ++ "/" ++ d.architecture ++ "/" ++ d.variant)
          else re (d.os ++ "/" ++ d.architecture)) = true) := by
  rw [Complete_default_spec o env args re hfil hlen hcomp hargs] at hc
  simp only [Except.ok.injEq] at hc
  subst hc
  refine ⟨rfl, rfl, ?_, ?_⟩
  · intro entries hone
    unfold filterManifests
    rw [hone]
    simp [includeDescriptor]
  · intro entries hmul d
    unfold filterManifests
    rw [List.mem_filter]
    have hdec : decide (1 < entries.length) = true := by simpa using hmul
    rw [hdec]
    simp only [includeDescriptor, Bool.not_true, Bool.and_false]
    rw [if_neg (by simp)]

/-- C9: an explicitly empty `--filter-by-os` leaves `OSFilter` nil and
`DefaultOSFilter` unset, and `includeDescriptor` then accepts every entry. -/
theorem c9_explicit_empty_filter
    (o : AppendImageOptions) (env : CompleteEnv) (args : List String)
    (o' : AppendImageOptions)
    (hfil : o.FilterByOS = "") (hnil : o.OSFilter = none)
    (hdef : o.DefaultOSFilter = false)
    (hargs : checkLayerArgs env args = .ok ())
    (hc : Complete o true args env = .ok o') :
    o'.OSFilter = none ∧ o'.DefaultOSFilter = false ∧
    (∀ (d : ManifestDescriptor) (hasMultiple : Bool),
      includeDescriptor o' d hasMultiple = true) := by
  rw [Complete_explicit_empty_spec o env args hfil hargs] at hc
  simp only [Except.ok.injEq] at hc
  subst hc
  refine ⟨hnil, hdef, ?_⟩
  intro d hm
  simp [includeDescriptor, hnil]

/-- C10: the scratch repository serves exactly the canonical empty gzipped tar
blob from `Stat`, `Get` and `Open`, returns the blob-unknown error on every
other digest, and only its unused methods panic. -/
theorem c10_scratch_repo (dgst : String) :
    (dgst = GzippedEmptyLayerDigest →
      scratchRepoStat dgst =
        .ok { mediaType := "application/vnd.docker.image.rootfs.diff.tar.gzip",
              digest := GzippedEmptyLayerDigest,
              size := (GzippedEmptyLayer.length : Int) } ∧
      scratchRepoGet dgst = .ok GzippedEmptyLayer ∧
      scratchRepoOpen dgst = .ok GzippedEmptyLayer) ∧
    (dgst ≠ GzippedEmptyLayerDigest →
      scratchRepoStat dgst = .error .blobUnknown ∧
      scratchRepoGet dgst = .error .blobUnknown ∧
      scratchRepoOpen dgst = .error .blobUnknown) ∧
    scratchRepoNamed = .panics "not implemented" ∧
    scratchRepoTags = .panics "not implemented" ∧
    scratchRepoManifests = .panics "not implemented" ∧
    scratchRepoPut = .panics "not implemented" ∧
    scratchRepoCreate = .panics "not implemented" ∧
    scratchRepoResume = .panics "not implemented" ∧
    scratchRepoServeBlob = .panics "not implemented" ∧
    scratchRepoDelete = .panics "not implemented" := by
  refine ⟨?_, ?_, rfl, rfl, rfl, rfl, rfl, rfl, rfl, rfl⟩
  · intro h
    subst h
    exact ⟨by simp [scratchRepoStat], by simp [scratchRepoGet], by simp [scratchRepoOpen]⟩
  · intro h
    exact ⟨by simp [scratchRepoStat, h], by simp [scratchRepoGet, h],
           by simp [scratchRepoOpen, h]⟩

/-! ## Claims about the inherited-layer transfer task -/

/-- Whatever happens later in the upload path, the destination blob-writer
creation is recorded as soon as the source blob opens. -/
theorem transferUpload_mem_create (env : RunEnv) (src : SrcBlobs)
    (sameRegistry : Bool) (layer : Descriptor) (missingDiffID : Bool)
    (size : Int) (diffID : Option String) (eff : List Effect)
    (hopen : src.openBlob layer.digest = .ok ()) :
    Effect.createLayer layer.digest sameRegistry ∈
      (transferUpload env src sameRegistry layer missingDiffID size diffID eff).2 := by
  unfold transferUpload
  rw [hopen]
  rcases h2 : env.toCreate layer.digest with m | u
  · simp
  · cases missingDiffID
    · rcases h3 : src.readFrom layer.digest with m | u2
      · simp
      · rcases h4 : env.toCommit layer.digest with m | desc
        · simp
        · by_cases h5 : desc.digest ≠ layer.digest
          · simp [h5]
          · simp [h5]
    · rcases h3 : src.digestCopy layer.digest with m | res
      · simp
      · rcases h4 : env.toCommit layer.digest with m | desc
        · simp
        · by_cases h5 : desc.digest ≠ layer.digest
          · simp [h5]
          · simp [h5]

/-- The upload path succeeds only when the committed descriptor's digest equals
the layer's compressed digest. -/
theorem transferUpload_ok_commit_match (env : RunEnv) (src : SrcBlobs)
    (sameRegistry : Bool) (layer : Descriptor) (missingDiffID : Bool)
    (size : Int) (diffID : Option String) (eff : List Effect)
    (desc : Descriptor) (v : Int × Option String)
    (hcommit : env.toCommit layer.digest = .ok desc)
    (hok : (transferUpload env src sameRegistry layer missingDiffID size diffID
      eff).1 = .ok v) :
    desc.digest = layer.digest := by
  by_cases h5 : desc.digest = layer.digest
  · exact h5
  · exfalso
    unfold transferUpload at hok
    rcases h1 : src.openBlob layer.digest with m | u
    · simp [h1] at hok
    · rcases h2 : env.toCreate layer.digest with m2 | u2
      · simp [h1, h2] at hok
      · cases missingDiffID
        · rcases h3 : src.readFrom layer.digest with m3 | u3
          · simp [h1, h2, h3] at hok
          · simp [h1, h2, h3, hcommit, h5] at hok
        · rcases h3 : src.digestCopy layer.digest with m3 | res
          · simp [h1, h2, h3] at hok
          · simp [h1, h2, h3, hcommit, h5] at hok

/-- If the upload path gets as far as committing and the committed digest
differs from the expected one, the task fails with the mismatch error. -/
theorem transferUpload_commit_mismatch (env : RunEnv) (src : SrcBlobs)
    (sameRegistry : Bool) (layer : Descriptor) (missingDiffID : Bool)
    (size : Int) (diffID : Option String) (eff : List Effect) (desc : Descriptor)
    (heff : Effect.commitLayer layer.digest ∉ eff)
    (hcommit : env.toCommit layer.digest = .ok desc)
    (hne : desc.digest ≠ layer.digest)
    (hmem : Effect.commitLayer layer.digest ∈
      (transferUpload env src sameRegistry layer missingDiffID size diffID eff).2) :
    (transferUpload env src sameRegistry layer missingDiffID size diffID eff).1 =
      .error (.digestMismatch desc.digest layer.digest) := by
  unfold transferUpload at hmem ⊢
  rcases h1 : src.openBlob layer.digest with m | u
  · simp [h1] at hmem
    exact absurd hmem heff
  · rcases h2 : env.toCreate layer.digest with m2 | u2
    · simp [h1, h2] at hmem
      exact absurd hmem heff
    · cases missingDiffID
      · rcases h3 : src.readFrom layer.digest with m3 | u3
        · simp [h1, h2, h3] at hmem
          exact absurd hmem heff
        · simp [h1, h2, h3, hcommit, hne]
      · rcases h3 : src.digestCopy layer.digest with m3 | res
        · simp [h1, h2, h3] at hmem
          exact absurd hmem heff
        · simp [h1, h2, h3, hcommit, hne]

/-- C1: with `--force` unset and a successful destination stat, the task
finishes without creating a destination blob writer, patching a zero size from
the stat result and computing the missing content digest from a discard-sink
read of the source blob — except that the empty-gzipped-tar layer still takes
the upload path. -/
theorem c1_skip_probe (env : RunEnv) (src : SrcBlobs) (sameRegistry : Bool)
    (layer : Descriptor) (missingDiffID : Bool) (d : Descriptor)
    (hstat : env.toStat layer.digest = .ok d) :
    (layer.digest ≠ GzippedEmptyLayerDigest →
      (∀ dg m, Effect.createLayer dg m ∉
          (transferTask env src false sameRegistry layer missingDiffID).2) ∧
      (∀ dg, Effect.commitLayer dg ∉
          (transferTask env src false sameRegistry layer missingDiffID).2) ∧
      (missingDiffID = false →
        transferTask env src false sameRegistry layer missingDiffID =
          (.ok ((if layer.size = 0 then d.size else layer.size), none),
           [Effect.statDest layer.digest])) ∧
      (missingDiffID = true → ∀ res, src.openBlob layer.digest = .ok () →
        src.digestCopy layer.digest = .ok res →
        transferTask env src false sameRegistry layer missingDiffID =
          (.ok ((if layer.size = 0 then d.size else layer.size),
                some res.layerDigest),
           [Effect.statDest layer.digest, Effect.openSrc layer.digest]))) ∧
    (layer.digest = GzippedEmptyLayerDigest →
      src.openBlob layer.digest = .ok () →
      (missingDiffID = false →
        Effect.createLayer layer.digest sameRegistry ∈
          (transferTask env src false sameRegistry layer missingDiffID).2) ∧
      (missingDiffID = true → ∀ res, src.digestCopy layer.digest = .ok res →
        Effect.createLayer layer.digest sameRegistry ∈
          (transferTask env src false sameRegistry layer missingDiffID).2)) := by
  constructor
  · intro hne
    refine ⟨?_, ?_, ?_, ?_⟩
    · intro dg m
      unfold transferTask
      cases missingDiffID
      · simp [hstat, hne]
      · rcases h1 : src.openBlob layer.digest with m1 | u
        · simp [hstat, h1]
        · rcases h2 : src.digestCopy layer.digest with m2 | res
          · simp [hstat, h1, h2]
          · simp [hstat, h1, h2, hne]
    · intro dg
      unfold transferTask
      cases missingDiffID
      · simp [hstat, hne]
      · rcases h1 : src.openBlob layer.digest with m1 | u
        · simp [hstat, h1]
        · rcases h2 : src.digestCopy layer.digest with m2 | res
          · simp [hstat, h1, h2]
          · simp [hstat, h1, h2, hne]
    · intro hm
      subst hm
      unfold transferTask
      simp [hstat, hne]
    · intro hm res hopen hcopy
      subst hm
      unfold transferTask
      simp [hstat, hopen, hcopy, hne]
  · intro heq hopen
    constructor
    · intro hm
      subst hm
      have h := transferUpload_mem_create env src sameRegistry layer false
        (if layer.size = 0 then d.size else layer.size) none
        [Effect.statDest layer.digest] hopen
      unfold transferTask
      simp only [hstat]
      simp [heq] at h ⊢
      exact h
    · intro hm res hcopy
      subst hm
      have h := transferUpload_mem_create env src sameRegistry layer true
        (if layer.size = 0 then d.size else layer.size) (some res.layerDigest)
        ([Effect.statDest layer.digest] ++ [Effect.openSrc layer.digest]) hopen
      unfold transferTask
      simp only [hstat, hopen, hcopy]
      simp [heq] at h ⊢
      exact h

/-- C2: a committed descriptor whose digest differs from the layer's compressed
digest makes the task fail with the mismatch error, and a task that succeeds
after committing did commit exactly the descriptor's compressed digest. -/
theorem c2_commit_digest_integrity (env : RunEnv) (src : SrcBlobs)
    (force sameRegistry : Bool) (layer : Descriptor) (missingDiffID : Bool)
    (desc : Descriptor)
    (hcommit : env.toCommit layer.digest = .ok desc) :
    (desc.digest ≠ layer.digest →
      Effect.commitLayer layer.digest ∈
        (transferTask env src force sameRegistry layer missingDiffID).2 →
      (transferTask env src force sameRegistry layer missingDiffID).1 =
        .error (.digestMismatch desc.digest layer.digest)) ∧
    (∀ v, (transferTask env src force sameRegistry layer missingDiffID).1 = .ok v →
      Effect.commitLayer layer.digest ∈
        (transferTask env src force sameRegistry layer missingDiffID).2 →
      desc.digest = layer.digest) := by
  constructor
  · intro hne hmem
    unfold transferTask at hmem ⊢
    cases force
    · rcases h1 : env.toStat layer.digest with m | d
      · simp only [h1] at hmem ⊢
        simp only [Bool.false_eq_true, if_false] at hmem ⊢
        exact transferUpload_commit_mismatch env src sameRegistry layer
          missingDiffID layer.size none _ desc (by simp) hcommit hne hmem
      · cases missingDiffID
        · simp only [h1, Bool.false_eq_true, if_false] at hmem ⊢
          by_cases h5 : layer.digest ≠ GzippedEmptyLayerDigest
          · rw [if_pos h5] at hmem
            simp at hmem
          · rw [if_neg h5] at hmem ⊢
            exact transferUpload_commit_mismatch env src sameRegistry layer
              false (if layer.size = 0 then d.size else layer.size) none _ desc
              (by simp) hcommit hne hmem
        · simp only [h1, Bool.false_eq_true, if_false, if_true] at hmem ⊢
          rcases h2 : src.openBlob layer.digest with m2 | u
          · simp [h2] at hmem
          · simp only [h2] at hmem ⊢
            rcases h3 : src.digestCopy layer.digest with m3 | res
            · simp [h3] at hmem
            · simp only [h3] at hmem ⊢
              by_cases h5 : layer.digest ≠ GzippedEmptyLayerDigest
              · rw [if_pos h5] at hmem
                simp at hmem
              · rw [if_neg h5] at hmem ⊢
                exact transferUpload_commit_mismatch env src sameRegistry layer
                  true (if layer.size = 0 then d.size else layer.size)
                  (some res.layerDigest) _ desc (by simp) hcommit hne hmem
    · simp only [if_pos rfl] at hmem ⊢
      exact transferUpload_commit_mismatch env src sameRegistry layer
        missingDiffID layer.size none [] desc (by simp) hcommit hne hmem
  · intro v hok hmem
    unfold transferTask at hok hmem
    cases force
    · rcases h1 : env.toStat layer.digest with m | d
      · simp only [h1, Bool.false_eq_true, if_false] at hok hmem
        exact transferUpload_ok_commit_match env src sameRegistry layer
          missingDiffID layer.size none _ desc v hcommit hok
      · cases missingDiffID
        · simp only [h1, Bool.false_eq_true, if_false] at hok hmem
          by_cases h5 : layer.digest ≠ GzippedEmptyLayerDigest
          · rw [if_pos h5] at hmem
            simp at hmem
          · rw [if_neg h5] at hok
            exact transferUpload_ok_commit_match env src sameRegistry layer
              false (if layer.size = 0 then d.size else layer.size) none _ desc
              v hcommit hok
        · simp only [h1, Bool.false_eq_true, if_false, if_true] at hok hmem
          rcases h2 : src.openBlob layer.digest with m2 | u
          · simp [h2] at hmem
          · simp only [h2] at hok hmem
            rcases h3 : src.digestCopy layer.digest with m3 | res
            · simp [h3] at hmem
            · simp only [h3] at hok hmem
              by_cases h5 : layer.digest ≠ GzippedEmptyLayerDigest
              · rw [if_pos h5] at hmem
                simp at hmem
              · rw [if_neg h5] at hok
                exact transferUpload_ok_commit_match env src sameRegistry layer
                  true (if layer.size = 0 then d.size else layer.size)
                  (some res.layerDigest) _ desc v hcommit hok
    · simp only [if_pos rfl] at hok
      exact transferUpload_ok_commit_match env src sameRegistry layer
        missingDiffID layer.size none [] desc v hcommit hok

/-! ## Helpers describing the pipeline's stages -/

/-- The descriptor `Run` builds for a local layer file. -/
def localDesc (env : RunEnv) (f : String) : Descriptor :=
  { mediaType := MediaTypeLayer, digest := (env.fileDigestCopy f).1.blobDigest,
    size := (env.fileDigestCopy f).1.n }

/-- The config update one local layer file performs. -/
def stepConfig (env : RunEnv) (base : DockerImageConfig) (f : String) :
    DockerImageConfig :=
  let res := (env.fileDigestCopy f).1
  let base := AddLayerToConfig base (localDesc env f) res.layerDigest
  match res.modTime with
  | some t => if t ≠ 0 then { base with Created := t } else base
  | none => base

/-- The config the command reports. -/
def configOf : RunOut → DockerImageConfig
  | .dryRunOut c _ => c
  | .pushed _ c _ => c

/-- The creation timestamp after folding local-layer tar modification times
over an initial value: a non-zero observed modtime replaces the current one. -/
def createdFold (t : Time) (mods : List (Option Time)) : Time :=
  mods.foldl (fun c mt =>
    match mt with
    | some m => if m ≠ 0 then m else c
    | none => c) t

/-- Number of layers in a pushed manifest, if the run pushed one. -/
def pushedLayerCount (o : AppendImageOptions) (env : RunEnv) : Option Nat :=
  match run o env with
  | (.ok (.pushed _ _ ls), _) => some ls.length
  | _ => none

/-- The reported config's creation time, if the run succeeded. -/
def resultCreated (o : AppendImageOptions) (env : RunEnv) : Option Time :=
  match run o env with
  | (.ok out, _) => some (configOf out).Created
  | _ => none

/-! ## Stage lemmas: the local-layer loop -/

/-- A successful local-layer step appends exactly the file's descriptor and
performs the file's config update. -/
theorem localLayerStep_ok_spec (o : AppendImageOptions) (env : RunEnv)
    (base : DockerImageConfig) (layers : List Descriptor) (eff : List Effect)
    (f : String) (b : DockerImageConfig) (l : List Descriptor) (eff' : List Effect)
    (h : localLayerStep o env base layers eff f = (.ok (b, l), eff')) :
    l = layers ++ [localDesc env f] ∧ b = stepConfig env base f := by
  unfold localLayerStep at h
  rcases h1 : env.fileOpen f with m | u
  · simp [h1] at h
  · simp only [h1] at h
    cases hd : o.DryRun
    · simp only [hd, Bool.false_eq_true, if_false] at h
      rcases h2 : env.toCreateLocal f with m | u2
      · simp [h2] at h
      · simp only [h2] at h
        rcases h3 : env.toCommitLocal (env.fileDigestCopy f).1.blobDigest with m | u3
        · simp [h3] at h
        · simp only [h3, Prod.mk.injEq, Except.ok.injEq] at h
          refine ⟨h.1.2.symm, ?_⟩
          rw [← h.1.1]
          simp [stepConfig, localDesc]
    · simp only [hd, if_true, Prod.mk.injEq, Except.ok.injEq] at h
      refine ⟨h.1.2.symm, ?_⟩
      rw [← h.1.1]
      simp [stepConfig, localDesc]

/-- A successful local phase appends the files' descriptors in command-line
order and folds their config updates. -/
theorem localPhase_ok_spec (o : AppendImageOptions) (env : RunEnv)
    (files : List String) :
    ∀ base layers eff b l eff',
      localPhase o env files base layers eff = (.ok (b, l), eff') →
      l = layers ++ files.map (localDesc env) ∧
      b = files.foldl (stepConfig env) base := by
  induction files with
  | nil =>
    intro base layers eff b l eff' h
    unfold localPhase at h
    simp only [Prod.mk.injEq, Except.ok.injEq] at h
    exact ⟨by simp [h.1.2.symm], h.1.1.symm⟩
  | cons f rest ih =>
    intro base layers eff b l eff' h
    unfold localPhase at h
    rcases hs : localLayerStep o env base layers eff f with ⟨r, eff2⟩
    simp only [hs] at h
    cases r with
    | error e => simp at h
    | ok p =>
      obtain ⟨b2, l2⟩ := p
      have hstep := localLayerStep_ok_spec o env base layers eff f b2 l2 eff2 hs
      obtain ⟨h1, h2⟩ := ih b2 l2 eff2 b l eff' h
      constructor
      · rw [h1, hstep.1, List.append_assoc]
        simp
      · rw [h2, hstep.2]
        simp [List.foldl]

/-- In dry-run mode a local-layer step records no effects. -/
theorem localLayerStep_dry_eff (o : AppendImageOptions) (env : RunEnv)
    (base : DockerImageConfig) (layers : List Descriptor) (eff : List Effect)
    (f : String) (hd : o.DryRun = true) :
    (localLayerStep o env base layers eff f).2 = eff := by
  unfold localLayerStep
  rcases h1 : env.fileOpen f with m | u <;> simp [h1, hd]

/-- In dry-run mode the whole local phase records no effects. -/
theorem localPhase_dry_eff (o : AppendImageOptions) (env : RunEnv)
    (files : List String) (hd : o.DryRun = true) :
    ∀ base layers eff, (localPhase o env files base layers eff).2 = eff := by
  induction files with
  | nil => intro base layers eff; rfl
  | cons f rest ih =>
    intro base layers eff
    unfold localPhase
    rcases hs : localLayerStep o env base layers eff f with ⟨r, eff2⟩
    have he : eff2 = eff := by
      have h := localLayerStep_dry_eff o env base layers eff f hd
      rw [hs] at h
      exact h
    cases r with
    | error e => simpa using he
    | ok p =>
      obtain ⟨b2, l2⟩ := p
      simpa [ih] using he

/-- The creation timestamp after the local-layer loop is the fold of the files'
observed tar modification times. -/
theorem createdFold_cons (t : Time) (mt : Option Time) (mts : List (Option Time)) :
    createdFold t (mt :: mts) =
      createdFold
        (match mt with | some m => if m ≠ 0 then m else t | none => t) mts := by
  unfold createdFold
  rw [List.foldl_cons]

/-- The creation timestamp after the local-layer loop is the fold of the files'
observed tar modification times. -/
theorem foldl_stepConfig_created (env : RunEnv) (files : List String) :
    ∀ base : DockerImageConfig,
      (files.foldl (stepConfig env) base).Created =
        createdFold base.Created
          (files.map fun f => (env.fileDigestCopy f).1.modTime) := by
  induction files with
  | nil => intro base; rfl
  | cons f rest ih =>
    intro base
    rw [List.foldl_cons, List.map_cons, createdFold_cons, ih]
    have hc : (stepConfig env base f).Created =
        (match (env.fileDigestCopy f).1.modTime with
         | some m => if m ≠ 0 then m else base.Created
         | none => base.Created) := by
      unfold stepConfig AddLayerToConfig
      rcases hm : (env.fileDigestCopy f).1.modTime with _ | t
      · simp [hm]
      · by_cases ht : t ≠ 0
        · simp [hm, ht]
        · simp [hm, ht]
    rw [hc]

/-! ## Stage lemmas: the transfer loop -/

/-- Patching a layer's size in place never changes the digest list. -/
theorem map_digest_set (l : List Descriptor) (i : Nat) (s : Int) :
    (l.set i { l.getD i {} with size := s }).map (fun d => d.digest) =
      l.map (fun d => d.digest) := by
  induction l generalizing i with
  | nil => simp
  | cons a t ih =>
    cases i with
    | zero => simp [List.getD]
    | succ n =>
      simp only [List.getD_cons_succ, List.set_cons_succ, List.map_cons]
      rw [ih n]

/-- A successful transfer loop preserves the layer digest list. -/
theorem transferLoop_map_digest (env : RunEnv) (src : SrcBlobs)
    (force sameRegistry : Bool) (idxs : List Nat) :
    ∀ layers diffIDs eff layers' diffIDs' eff',
      transferLoop env src force sameRegistry idxs layers diffIDs eff =
        (.ok (layers', diffIDs'), eff') →
      layers'.map (fun d => d.digest) = layers.map (fun d => d.digest) := by
  induction idxs with
  | nil =>
    intro layers diffIDs eff layers' diffIDs' eff' h
    unfold transferLoop at h
    simp only [Prod.mk.injEq, Except.ok.injEq] at h
    rw [← h.1.1]
  | cons i rest ih =>
    intro layers diffIDs eff layers' diffIDs' eff' h
    unfold transferLoop at h
    rcases ht : transferTask env src force sameRegistry (layers.getD i {})
        ((diffIDs.getD i "").length == 0) with ⟨r, teff⟩
    simp only [ht] at h
    cases r with
    | error e => simp at h
    | ok p =>
      obtain ⟨size, diffID?⟩ := p
      have := ih _ _ _ _ _ _ h
      rw [this, map_digest_set]

/-! ## Stage lemmas: inversion of the pipeline -/

/-- The schema-1 loop appends one descriptor per blob sum, in loop order. -/
theorem schema1Step_layers (l : List String) :
    ∀ acc : DockerImageConfig × List Descriptor,
      (l.foldl schema1Step acc).2 = acc.2 ++ l.map schema1Layer := by
  induction l with
  | nil => intro acc; simp
  | cons bs rest ih =>
    intro acc
    rw [List.foldl_cons, ih, List.map_cons]
    simp [schema1Step]

/-- `--drop-history` does not touch the creation timestamp. -/
theorem applyDropHistory_created (o : AppendImageOptions)
    (base : DockerImageConfig) :
    (applyDropHistory o base).Created = base.Created := by
  unfold applyDropHistory
  cases h : o.DropHistory <;> simp

/-- The `--image` patch does not touch the creation timestamp. -/
theorem applyConfigPatch_created (o : AppendImageOptions) (env : RunEnv)
    (base b : DockerImageConfig)
    (h : applyConfigPatch o env base = .ok b) :
    b.Created = base.Created := by
  unfold applyConfigPatch at h
  by_cases hc : o.ConfigPatch.length > 0
  · rw [if_pos hc] at h
    rcases hi : env.imagePatch o.ConfigPatch (base.Config.getD {}) with _ | c <;>
      simp only [hi] at h
    · simp at h
    · simp only [Except.ok.injEq] at h
      rw [← h]
  · rw [if_neg hc] at h
    simp only [Except.ok.injEq] at h
    rw [← h]

/-- With an empty `--meta` patch the meta step is the identity. -/
theorem applyMetaPatch_empty (o : AppendImageOptions) (env : RunEnv)
    (base : DockerImageConfig) (hmeta : o.MetaPatch = "") :
    applyMetaPatch o env base = .ok base := by
  unfold applyMetaPatch
  rw [hmeta]
  simp

/-- With an empty `--meta` patch, the assembled config's creation time is the
supplied timestamp, or the current wall clock when none was supplied. -/
theorem assembleConfig_created (o : AppendImageOptions) (env : RunEnv)
    (ca : Option Time) (base b1 : DockerImageConfig)
    (hmeta : o.MetaPatch = "")
    (h : assembleConfig o env ca base = .ok b1) :
    b1.Created = ca.getD env.now := by
  unfold assembleConfig at h
  rcases hp : applyConfigPatch o env
      (applyDropHistory o { ensureConfig base with Created := ca.getD env.now })
      with e | b2
  · simp only [hp] at h
    simp at h
  · simp only [hp] at h
    rw [applyMetaPatch_empty o env b2 hmeta] at h
    simp only [Except.ok.injEq] at h
    subst h
    rw [applyConfigPatch_created o env _ _ hp, applyDropHistory_created]

/-- Inversion of `prepare`. -/
theorem prepare_inv (o : AppendImageOptions) (env : RunEnv)
    (from? : Option DockerImageReference) (toRef : DockerImageReference)
    (base1 : DockerImageConfig) (layers0 : List Descriptor) (isScratch : Bool)
    (h : prepare o env = .ok (from?, toRef, base1, layers0, isScratch)) :
    ∃ ca base0,
      parseCreatedAt env o.CreatedAt = .ok ca ∧
      parseFromRef env o.From = .ok from? ∧
      parseToRef env o.To = .ok toRef ∧
      resolveBase env from? = .ok (base0, layers0, isScratch) ∧
      assembleConfig o env ca base0 = .ok base1 := by
  unfold prepare at h
  rcases h1 : parseCreatedAt env o.CreatedAt with e | ca <;> simp only [h1] at h
  · simp at h
  · rcases h2 : parseFromRef env o.From with e | f? <;> simp only [h2] at h
    · simp at h
    · rcases h3 : parseToRef env o.To with e | t2 <;> simp only [h3] at h
      · simp at h
      · rcases h4 : resolveBase env f? with e | trip <;> simp only [h4] at h
        · simp at h
        · obtain ⟨b0, l0, sc⟩ := trip
          rcases h5 : assembleConfig o env ca b0 with e | b1 <;>
            simp only [h5] at h
          · simp at h
          · simp only [Except.ok.injEq, Prod.mk.injEq] at h
            obtain ⟨hf, ht, hb, hl, hs⟩ := h
            subst hf; subst ht; subst hb; subst hl; subst hs
            exact ⟨ca, b0, rfl, rfl, rfl, h4, h5⟩

/-- Inversion of a successful `run`. -/
theorem run_ok_inv (o : AppendImageOptions) (env : RunEnv) (out : RunOut)
    (tr : List Effect) (h : run o env = (.ok out, tr)) :
    ∃ from? toRef base1 layers0 isScratch base2 layers2 eff,
      prepare o env = .ok (from?, toRef, base1, layers0, isScratch) ∧
      localPhase o env o.LayerFiles base1 layers0 [] = (.ok (base2, layers2), eff) ∧
      ((o.DryRun = true ∧ out = .dryRunOut base2 layers2 ∧
          tr = eff ++ [Effect.printConfig base2]) ∨
       (o.DryRun = false ∧
          publishPhase o env from? toRef isScratch base2 layers2 layers0.length
            eff = (.ok out, tr))) := by
  unfold run at h
  rcases hp : prepare o env with e | q
  · simp [hp] at h
  · obtain ⟨from?, toRef, base1, layers0, isScratch⟩ := q
    simp only [hp] at h
    rcases hl : localPhase o env o.LayerFiles base1 layers0 [] with ⟨r, eff⟩
    simp only [hl] at h
    cases r with
    | error e => simp at h
    | ok p =>
      obtain ⟨base2, layers2⟩ := p
      cases hd : o.DryRun
      · simp only [hd, Bool.false_eq_true, if_false] at h
        exact ⟨from?, toRef, base1, layers0, isScratch, base2, layers2, eff,
          rfl, hl, Or.inr ⟨rfl, h⟩⟩
      · simp only [hd, if_true, Prod.mk.injEq, Except.ok.injEq] at h
        exact ⟨from?, toRef, base1, layers0, isScratch, base2, layers2, eff,
          rfl, hl, Or.inl ⟨rfl, h.1.symm, h.2.symm⟩⟩

/-- Inversion of a successful `publishPhase`. -/
theorem publishPhase_ok_inv (o : AppendImageOptions) (env : RunEnv)
    (from? : Option DockerImageReference) (toRef : DockerImageReference)
    (isScratch : Bool) (base : DockerImageConfig) (layers : List Descriptor)
    (numLayers : Nat) (eff : List Effect) (out : RunOut) (tr : List Effect)
    (h : publishPhase o env from? toRef isScratch base layers numLayers eff =
      (.ok out, tr)) :
    ∃ layers3 diffIDs3 eff3 dg,
      transferLoop env (srcBlobsFor env isScratch) o.Force
        (sameRegistryFor from? toRef)
        (List.range numLayers) layers base.DiffIDs eff =
        (.ok (layers3, diffIDs3), eff3) ∧
      env.putManifest = .ok dg ∧
      out = .pushed dg { base with DiffIDs := diffIDs3 } layers3 := by
  unfold publishPhase at h
  rcases ht : transferLoop env (srcBlobsFor env isScratch) o.Force
      (sameRegistryFor from? toRef)
      (List.range numLayers) layers base.DiffIDs eff with ⟨r, eff3⟩
  simp only [ht] at h
  cases r with
  | error m => simp at h
  | ok p =>
    obtain ⟨layers3, diffIDs3⟩ := p
    rcases hu : env.uploadConfig with m | cd <;> simp only [hu] at h
    · simp at h
    · rcases hm : env.putManifest with m | dg <;> simp only [hm] at h
      · simp at h
      · simp only [Prod.mk.injEq, Except.ok.injEq] at h
        exact ⟨layers3, diffIDs3, eff3, dg, rfl, rfl, h.1.symm⟩

/-- A pushed manifest's digest list: the inherited digests in source order
followed by the local files' blob digests in command-line order. -/
theorem run_pushed_digests (o : AppendImageOptions) (env : RunEnv)
    (from? : Option DockerImageReference) (toRef : DockerImageReference)
    (base1 : DockerImageConfig) (layers0 : List Descriptor) (isScratch : Bool)
    (dg : String) (c : DockerImageConfig) (ls : List Descriptor) (tr : List Effect)
    (hp : prepare o env = .ok (from?, toRef, base1, layers0, isScratch))
    (hr : run o env = (.ok (.pushed dg c ls), tr)) :
    ls.map (fun d => d.digest) =
      layers0.map (fun d => d.digest) ++
        o.LayerFiles.map (fun f => (localDesc env f).digest) := by
  obtain ⟨f2, t2, b2, l2, s2, base2, layers2, eff, hp2, hl2, hrest⟩ :=
    run_ok_inv o env _ tr hr
  rw [hp] at hp2
  simp only [Except.ok.injEq, Prod.mk.injEq] at hp2
  obtain ⟨he1, he2, he3, he4, he5⟩ := hp2
  subst he1; subst he2; subst he3; subst he4; subst he5
  rcases hrest with ⟨_, hout, _⟩ | ⟨_, hpub⟩
  · simp at hout
  · obtain ⟨layers3, diffIDs3, eff3, dg2, ht, _, hout⟩ :=
      publishPhase_ok_inv o env from? toRef isScratch base2 layers2
        layers0.length eff _ tr hpub
    simp only [RunOut.pushed.injEq] at hout
    obtain ⟨_, _, hls⟩ := hout
    subst hls
    have hmap := transferLoop_map_digest env
      (srcBlobsFor env isScratch) o.Force (sameRegistryFor from? toRef)
      (List.range layers0.length) _ _ _ _ _ _ ht
    rw [hmap]
    obtain ⟨hl, _⟩ := localPhase_ok_spec o env o.LayerFiles base1 layers0 []
      base2 layers2 eff hl2
    rw [hl, List.map_append, List.map_map]
    rfl

/-! ## Claims about the pipeline -/

/-- C4: in a pushed manifest the inherited layers keep their source order and
the appended local layers follow in command-line order; a modern (schema-2)
source contributes its layer list as is, and a legacy (schema-1) source
contributes its blob-sum list reversed. -/
theorem c4_layer_order (env : RunEnv) :
    (∀ (o : AppendImageOptions) from? toRef base1 layers0 isScratch dg c ls tr,
      prepare o env = .ok (from?, toRef, base1, layers0, isScratch) →
      run o env = (.ok (.pushed dg c ls), tr) →
      ls.map (fun d => d.digest) =
        layers0.map (fun d => d.digest) ++
          o.LayerFiles.map (fun f => (localDesc env f).digest)) ∧
    (∀ (f : DockerImageReference) (cfg : Descriptor) (L : List Descriptor)
        (c0 : DockerImageConfig),
      f.Tag.length = 0 →
      env.manifestGet f.ID = .ok (.schema2 cfg L) →
      cfg.mediaType = MediaTypeImageConfig →
      env.configBlobGet cfg.digest = .ok (some c0) →
      resolveBase env (some f) =
        .ok ({ c0 with Size := (L.map (fun d => d.size)).sum }, L, false)) ∧
    (∀ (f : DockerImageReference) (hist fs : List String)
        (b0 : DockerImageConfig),
      f.Tag.length = 0 →
      env.manifestGet f.ID = .ok (.schema1 hist fs) →
      0 < hist.length →
      env.v1Convert (hist.headD "") = .ok b0 →
      ∃ b L, resolveBase env (some f) = .ok (b, L, false) ∧
        L.map (fun d => d.digest) = fs.reverse) := by
  refine ⟨?_, ?_, ?_⟩
  · intro o from? toRef base1 layers0 isScratch dg c ls tr hp hr
    exact run_pushed_digests o env from? toRef base1 layers0 isScratch dg c ls
      tr hp hr
  · intro f cfg L c0 htag hman hmt hcfg
    have h1 : ¬ (f.Tag.length > 0) := by simp [htag]
    have h2 : ¬ (cfg.mediaType ≠ MediaTypeImageConfig) := by simp [hmt]
    simp only [resolveBase, if_neg h1, hman, if_neg h2, hcfg]
  · intro f hist fs b0 htag hman hhist hconv
    have h1 : ¬ (f.Tag.length > 0) := by simp [htag]
    have h3 : ¬ (hist.length = 0) := by omega
    simp only [resolveBase, if_neg h1, hman, if_neg h3, hconv]
    refine ⟨_, _, rfl, ?_⟩
    rw [schema1Step_layers]
    simp only [List.nil_append, List.map_map]
    have hcomp : ((fun d => d.digest) ∘ schema1Layer) = fun bs => bs := by
      funext bs
      simp [schema1Layer]
    rw [hcomp]
    simp

/-- C5 (amended): the creation timestamp starts from `--created-at` when the
flag parses (else the current wall clock), and every non-zero tar modification
time observed while reading an appended layer overrides it — whether or not an
explicit timestamp was supplied. Stated for runs without a `--meta` patch,
which could rewrite the whole config. -/
theorem c5_created_amended (o : AppendImageOptions) (env : RunEnv)
    (ca : Option Time) (out : RunOut) (tr : List Effect)
    (hmeta : o.MetaPatch = "")
    (hca : parseCreatedAt env o.CreatedAt = .ok ca)
    (hr : run o env = (.ok out, tr)) :
    (configOf out).Created =
      createdFold (ca.getD env.now)
        (o.LayerFiles.map fun f => (env.fileDigestCopy f).1.modTime) ∧
    (o.CreatedAt = "" → ca = none) := by
  constructor
  · obtain ⟨from?, toRef, base1, layers0, isScratch, base2, layers2, eff,
      hp, hl, hrest⟩ := run_ok_inv o env out tr hr
    obtain ⟨ca2, base0, hca2, _, _, _, hasm⟩ := prepare_inv o env _ _ _ _ _ hp
    rw [hca] at hca2
    simp only [Except.ok.injEq] at hca2
    subst hca2
    have hcreated1 := assembleConfig_created o env ca base0 base1 hmeta hasm
    obtain ⟨_, hb2⟩ :=
      localPhase_ok_spec o env o.LayerFiles base1 layers0 [] base2 layers2 eff hl
    have hc2 : base2.Created =
        createdFold (ca.getD env.now)
          (o.LayerFiles.map fun f => (env.fileDigestCopy f).1.modTime) := by
      rw [hb2, foldl_stepConfig_created, hcreated1]
    rcases hrest with ⟨_, hout, _⟩ | ⟨_, hpub⟩
    · rw [hout]
      exact hc2
    · obtain ⟨l3, d3, e3, dg, ht, hm, hout⟩ :=
        publishPhase_ok_inv o env from? toRef isScratch base2 layers2
          layers0.length eff out tr hpub
      rw [hout]
      exact hc2
  · intro h0
    rw [h0] at hca
    unfold parseCreatedAt at hca
    simp at hca
    exact hca.symm

/-- C6 (amended): with a scratch base and one appended local layer, the pushed
manifest has exactly two layers — the synthetic empty layer followed by the
appended layer. -/
theorem c6_scratch_layer_count (o : AppendImageOptions) (env : RunEnv)
    (f dg : String) (c : DockerImageConfig) (ls : List Descriptor)
    (tr : List Effect)
    (hfrom : o.From = "") (hfiles : o.LayerFiles = [f])
    (hr : run o env = (.ok (.pushed dg c ls), tr)) :
    ls.map (fun d => d.digest) =
      [GzippedEmptyLayerDigest, (env.fileDigestCopy f).1.blobDigest] ∧
    ls.length = 2 := by
  obtain ⟨from?, toRef, base1, layers0, isScratch, base2, layers2, eff,
    hp, _, _⟩ := run_ok_inv o env _ tr hr
  obtain ⟨ca, base0, _, hfromRef, _, hres, _⟩ := prepare_inv o env _ _ _ _ _ hp
  rw [hfrom] at hfromRef
  unfold parseFromRef at hfromRef
  simp only [String.length_empty, gt_iff_lt, lt_irrefl, if_false,
    Except.ok.injEq] at hfromRef
  subst hfromRef
  simp only [resolveBase, Except.ok.injEq, Prod.mk.injEq] at hres
  obtain ⟨_, hl0, _⟩ := hres
  have hdg := run_pushed_digests o env none toRef base1 layers0 isScratch dg c
    ls tr hp hr
  rw [← hl0, hfiles] at hdg
  constructor
  · rw [hdg]
    simp [AddScratchLayerToConfig, localDesc]
  · have := congrArg List.length hdg
    simpa using this

/-- C7: in dry-run mode the command records no registry operations other than
printing the assembled config: an error leaves the trace empty, and a success
returns the dry-run output whose only trace entry is the printed config. -/
theorem c7_dry_run_frame (o : AppendImageOptions) (env : RunEnv)
    (hd : o.DryRun = true) :
    (∀ e, (run o env).1 = .error e → (run o env).2 = []) ∧
    (∀ out, (run o env).1 = .ok out →
      ∃ c l, out = .dryRunOut c l ∧ (run o env).2 = [Effect.printConfig c]) := by
  unfold run
  rcases hp : prepare o env with e | q
  · simp
  · obtain ⟨from?, toRef, base1, layers0, isScratch⟩ := q
    rcases hl : localPhase o env o.LayerFiles base1 layers0 [] with ⟨r, eff⟩
    have heff : eff = [] := by
      have h := localPhase_dry_eff o env o.LayerFiles hd base1 layers0 []
      rw [hl] at h
      exact h
    subst heff
    cases r with
    | error e2 =>
      simp only [hl]
      simp
    | ok p =>
      obtain ⟨base2, layers2⟩ := p
      simp only [hl]
      refine ⟨?_, ?_⟩
      · intro e h
        simp [hd] at h
      · intro out h
        simp only [hd, if_true] at h ⊢
        simp at h
        exact ⟨base2, layers2, h.symm, by simp⟩

/-- C8: a destination reference with a content id, or a source reference with
neither tag nor content id, makes the command fail before any blob or manifest
operation is issued. -/
theorem c8_reference_validation (o : AppendImageOptions) (env : RunEnv) :
    (∀ t, env.parseRef o.To = some t → 0 < t.ID.length →
      (∃ e, (run o env).1 = .error e) ∧ (run o env).2 = []) ∧
    (∀ f, 0 < o.From.length → env.parseRef o.From = some f →
      f.Tag.length = 0 → f.ID.length = 0 →
      (∃ e, (run o env).1 = .error e) ∧ (run o env).2 = []) := by
  constructor
  · intro t hpt hid
    unfold run prepare
    rcases h1 : parseCreatedAt env o.CreatedAt with e | ca
    · simp
    · rcases h2 : parseFromRef env o.From with e | f?
      · simp
      · have h3 : parseToRef env o.To = .error .toByID := by
          unfold parseToRef
          simp only [hpt]
          rw [if_pos hid]
        simp [h3]
  · intro f hlen hpf htag hid
    unfold run prepare
    rcases h1 : parseCreatedAt env o.CreatedAt with e | ca
    · simp
    · have h2 : parseFromRef env o.From = .error .fromNeedsTagOrID := by
        unfold parseFromRef
        rw [if_pos hlen]
        simp only [hpf]
        rw [if_pos ⟨htag, hid⟩]
      simp [h2]

/-! ## Concrete environments for witnesses and counterexamples -/

/-- A source blob store whose reads all succeed. -/
def testSrcBlobs : SrcBlobs where
  openBlob _ := .ok ()
  digestCopy _ := .ok { layerDigest := "sha256:tar", blobDigest := "sha256:blob",
                        modTime := none, n := 4 }
  readFrom _ := .ok ()

/-- A run environment whose destination writes succeed; the destination stat
reports blobs missing, and local files carry a non-zero tar modtime. -/
def testEnvBase : RunEnv where
  now := 77
  rfc3339 _ := none
  parseRef _ := some {}
  tagGet _ := .error "no tags"
  manifestGet _ := .error "no manifests"
  configBlobGet _ := .error "no blobs"
  v1Convert _ := .error "no convert"
  imagePatch _ _ := none
  metaPatch _ _ := none
  fileOpen _ := .ok ()
  fileDigestCopy _ := ({ layerDigest := "sha256:tar", blobDigest := "sha256:blob",
                         modTime := some 5, n := 10 }, false)
  src := testSrcBlobs
  toStat _ := .error "missing"
  toCreateLocal _ := .ok ()
  toCommitLocal _ := .ok ()
  toCreate _ := .ok ()
  toCommit d := .ok { mediaType := "", digest := d, size := 9 }
  uploadConfig := .ok {}
  putManifest := .ok "sha256:manifest"

/-- Like `testEnvBase` but the destination already has every blob. -/
def testEnvStat : RunEnv :=
  { testEnvBase with
    toStat := fun _ => .ok { mediaType := "", digest := "sha256:blob", size := 7 } }

/-- Like `testEnvBase` but commits return a different digest than expected. -/
def envMismatch : RunEnv :=
  { testEnvBase with
    toCommit := fun _ => .ok { mediaType := "", digest := "sha256:other", size := 9 } }

/-- A schema-2 source with one inherited layer. -/
def envC4 : RunEnv :=
  { testEnvBase with
    manifestGet := fun _ => .ok (.schema2
      { mediaType := MediaTypeImageConfig, digest := "sha256:cfg", size := 1 }
      [{ mediaType := "", digest := "sha256:l1", size := 2 }]),
    configBlobGet := fun _ => .ok (some {}) }

/-- A parser that reports a content id on every reference. -/
def envC8 : RunEnv :=
  { testEnvBase with parseRef := fun _ => some { ID := "sha256:abc" } }

/-- A completion environment for a linux/amd64 host. -/
def testCompleteEnv : CompleteEnv where
  goos := "linux"
  goarch := "amd64"
  quoteMeta s := s
  compile p := some (fun s => s == p)
  statFile _ := .ok false

/-- `--created-at 1000 --dry-run layer.tar.gz` on a scratch base. -/
def c5Opts : AppendImageOptions :=
  { To := "registry.example/out:t", CreatedAt := "1000", DryRun := true,
    LayerFiles := ["layer.tar.gz"] }

/-- Scratch base, one local layer, full push. -/
def c6Opts : AppendImageOptions :=
  { To := "registry.example/out:t", LayerFiles := ["layer.tar.gz"] }

/-- A destination reference carrying a content id. -/
def c8Opts : AppendImageOptions :=
  { To := "registry.example/out@sha256:abc" }

/-- The run output of the dry-run scenario. -/
def c5Out : RunOut :=
  match run c5Opts testEnvBase with
  | (.ok out, _) => out
  | _ => .dryRunOut {} []

/-- The pushed config of the scratch-plus-one-layer scenario. -/
def c6Config : DockerImageConfig :=
  match run c6Opts testEnvBase with
  | (.ok (.pushed _ c _), _) => c
  | _ => {}

/-- The pushed layer list of the scratch-plus-one-layer scenario. -/
def c6Layers : List Descriptor :=
  match run c6Opts testEnvBase with
  | (.ok (.pushed _ _ ls), _) => ls
  | _ => []

/-! ## Counterexamples -/

/-- C5 as stated is false: `--created-at 1000` is supplied and parses to
second 1 of the epoch, yet the layer's non-zero tar modtime (5 ns) supersedes
the explicit timestamp in the assembled config. -/
theorem c5_counterexample :
    parseCreatedAt testEnvBase c5Opts.CreatedAt = .ok (some 1000000000) ∧
    resultCreated c5Opts testEnvBase = some 5 ∧ (5 : Time) ≠ 1000000000 :=
  ⟨rfl, rfl, by decide⟩

/-- C6 as stated is false: with `--from` omitted and exactly one local layer,
the pushed manifest has two layers (the synthetic empty layer is kept), not
one. -/
theorem c6_counterexample :
    pushedLayerCount c6Opts testEnvBase = some 2 ∧ (2 : Nat) ≠ 1 :=
  ⟨rfl, by decide⟩

/-! ## Witnesses -/

theorem c1_skip_probe_witness :
    transferTask testEnvStat testSrcBlobs false false
      { mediaType := "", digest := "sha256:layer1", size := 0 } true =
      (.ok (7, some "sha256:tar"),
       [Effect.statDest "sha256:layer1", Effect.openSrc "sha256:layer1"]) :=
  ((c1_skip_probe testEnvStat testSrcBlobs false
      { mediaType := "", digest := "sha256:layer1", size := 0 } true
      { mediaType := "", digest := "sha256:blob", size := 7 } rfl).1
    (by decide)).2.2.2 rfl
    { layerDigest := "sha256:tar", blobDigest := "sha256:blob",
      modTime := none, n := 4 } rfl rfl

theorem c2_commit_digest_integrity_witness :
    (transferTask envMismatch testSrcBlobs true false
      { mediaType := "", digest := "sha256:layer1", size := 3 } false).1 =
      .error (.digestMismatch "sha256:other" "sha256:layer1") :=
  (c2_commit_digest_integrity envMismatch testSrcBlobs true false
      { mediaType := "", digest := "sha256:layer1", size := 3 } false
      { mediaType := "", digest := "sha256:other", size := 9 } rfl).1
    (by decide) (by decide)

theorem c3_default_filter_selection_witness :
    filterManifests
      { DefaultOSFilter := true, OSFilter := some (fun s => s == "linux/amd64"),
        LayerFiles := ["layer.tar.gz"] }
      [{ os := "windows", architecture := "arm64" }] =
      [{ os := "windows", architecture := "arm64" }] :=
  (c3_default_filter_selection {} testCompleteEnv ["layer.tar.gz"]
      { DefaultOSFilter := true, OSFilter := some (fun s => s == "linux/amd64"),
        LayerFiles := ["layer.tar.gz"] }
      (fun s => s == "linux/amd64") rfl (by decide) rfl rfl rfl).2.2.1
    [{ os := "windows", architecture := "arm64" }] rfl

theorem c4_layer_order_witness :
    resolveBase envC4
      (some { Registry := "r", Repository := "a", Tag := "", ID := "sha256:src" }) =
      .ok ({ Size := 2 },
        [{ mediaType := "", digest := "sha256:l1", size := 2 }], false) :=
  (c4_layer_order envC4).2.1
    { Registry := "r", Repository := "a", Tag := "", ID := "sha256:src" }
    { mediaType := MediaTypeImageConfig, digest := "sha256:cfg", size := 1 }
    [{ mediaType := "", digest := "sha256:l1", size := 2 }] {} rfl rfl rfl rfl

theorem c5_created_amended_witness :
    (configOf c5Out).Created =
      createdFold ((some 1000000000 : Option Time).getD testEnvBase.now)
        (c5Opts.LayerFiles.map fun f =>
          (testEnvBase.fileDigestCopy f).1.modTime) :=
  (c5_created_amended c5Opts testEnvBase (some 1000000000) c5Out
      (run c5Opts testEnvBase).2 rfl rfl rfl).1

theorem c6_scratch_layer_count_witness :
    c6Layers.map (fun d => d.digest) =
      [GzippedEmptyLayerDigest,
       (testEnvBase.fileDigestCopy "layer.tar.gz").1.blobDigest] ∧
    c6Layers.length = 2 :=
  c6_scratch_layer_count c6Opts testEnvBase "layer.tar.gz" "sha256:manifest"
    c6Config c6Layers (run c6Opts testEnvBase).2 rfl rfl rfl

theorem c7_dry_run_frame_witness :
    ∃ c l, c5Out = RunOut.dryRunOut c l ∧
      (run c5Opts testEnvBase).2 = [Effect.printConfig c] :=
  (c7_dry_run_frame c5Opts testEnvBase rfl).2 c5Out rfl

theorem c8_reference_validation_witness :
    (∃ e, (run c8Opts envC8).1 = .error e) ∧ (run c8Opts envC8).2 = [] :=
  (c8_reference_validation c8Opts envC8).1 { ID := "sha256:abc" } rfl (by decide)

theorem c9_explicit_empty_filter_witness :
    includeDescriptor { LayerFiles := ["layer.tar.gz"] }
      { os := "plan9", architecture := "mips" } true = true :=
  (c9_explicit_empty_filter {} testCompleteEnv ["layer.tar.gz"]
      { LayerFiles := ["layer.tar.gz"] } rfl rfl rfl rfl rfl).2.2
    { os := "plan9", architecture := "mips" } true

theorem c10_scratch_repo_witness :
    scratchRepoStat GzippedEmptyLayerDigest =
      .ok { mediaType := "application/vnd.docker.image.rootfs.diff.tar.gzip",
            digest := GzippedEmptyLayerDigest,
            size := (GzippedEmptyLayer.length : Int) } ∧
    scratchRepoGet GzippedEmptyLayerDigest = .ok GzippedEmptyLayer ∧
    scratchRepoOpen GzippedEmptyLayerDigest = .ok GzippedEmptyLayer :=
  (c10_scratch_repo GzippedEmptyLayerDigest).1 rfl

end ImageAppend
